import Mathlib

set_option autoImplicit false

/-
Shallow embedding of the aws-auth credential-issuance core.

Sources embedded:
  src/aws_sso/cache.rs        (Cache, ManageCache trait defaults, MonoJsonCacheManager)
  src/aws_sso/auth.rs         (AuthManager: prepare_sso_and_resolve, assume_role,
                               load_cache, register_client, create_access_token,
                               refresh_access_token, resolve_credentials)
  src/utils/lock.rs           (CounterLock, DecayingJsonCounterLockProvider)
  src/utils/worker.rs         (Worker / ThreadPool result collection)
  src/commands/batch/mod.rs   (exec_batch credential-resolution loop)
  src/credential_providers/aws_sso/types.rs (CredentialsWrapper, From impls)
  src/aws_sso/mod.rs          (build_aws_sso_manager lock configuration)

Timestamps and durations are modelled as integers (ticks); `chrono::Duration::minutes(5)`
becomes the constant 300 (seconds).  Machine integers that can overflow (the u64 counter
of CounterLock) are modelled as Nat with explicit reduction modulo 2^64.  Remote calls,
the browser launcher and file I/O are modelled as an explicit environment of per-call
outcomes; fallible steps return Except.
-/

namespace AwsAuth

/-- `const EXPIRATION_BUFFER: Duration = Duration::minutes(5)` from src/aws_sso/cache.rs,
in seconds. -/
def EXPIRATION_BUFFER : Int := 300

/-! ### Data model: src/credential_providers/aws_sso/types.rs -/

/-- `ClientInformation` from types.rs; `Default` derives to all-`None` fields. -/
structure ClientInformation where
  start_url : Option String := none
  client_secret_expires_at : Option Int := none
  access_token_expires_at : Option Int := none
  client_id : Option String := none
  client_secret : Option String := none
  access_token : Option String := none
  refresh_token : Option String := none
deriving Repr, DecidableEq

/-- `ClientInformation::default()`: every field `None`. -/
def ClientInformation.default : ClientInformation := {}

/-- `CredentialsWrapper` from types.rs. -/
structure CredentialsWrapper where
  access_key_id : String
  secret_access_key : String
  session_token : Option String
  expires_after : Option Int
deriving Repr, DecidableEq

/-- The aws-sdk `Credentials` value as the program observes it: the four accessor
fields plus the provider name passed to `Credentials::new`. -/
structure Credentials where
  access_key_id : String
  secret_access_key : String
  session_token : Option String
  expiry : Option Int
  provider_name : String
deriving Repr, DecidableEq

/-- `Credentials::new(access_key_id, secret_access_key, session_token, expiry, provider_name)`. -/
def Credentials.new (akid sak : String) (st : Option String) (exp : Option Int)
    (pn : String) : Credentials :=
  ⟨akid, sak, st, exp, pn⟩

/-- `impl From<Credentials> for CredentialsWrapper` (types.rs lines 15-24). -/
def CredentialsWrapper.fromCredentials (c : Credentials) : CredentialsWrapper :=
  { access_key_id := c.access_key_id
    secret_access_key := c.secret_access_key
    session_token := c.session_token
    expires_after := c.expiry }

/-- `impl From<CredentialsWrapper> for Credentials` (types.rs lines 26-36). -/
def Credentials.fromWrapper (w : CredentialsWrapper) : Credentials :=
  Credentials.new w.access_key_id w.secret_access_key w.session_token w.expires_after
    "credential-wrapper"

/-! ### SessionCache: src/aws_sso/cache.rs -/

/-- `Cache { client_info, sessions: HashMap<String, CredentialsWrapper> }`; the hash map
is modelled as an association list with unique keys (insert replaces). -/
structure Cache where
  client_info : ClientInformation := {}
  sessions : List (String × CredentialsWrapper) := []
deriving Repr, DecidableEq

namespace Cache

/-- `format!("{}-{}", account_id, role_name)`, the session key. -/
def session_key (account_id role_name : String) : String :=
  account_id ++ "-" ++ role_name

/-- `HashMap::get` on the modelled sessions map. -/
def sessions_get (c : Cache) (key : String) : Option CredentialsWrapper :=
  c.sessions.lookup key

/-- `HashMap::insert`: replaces any entry with the same key. -/
def sessions_insert (c : Cache) (key : String) (v : CredentialsWrapper) : Cache :=
  { c with sessions := (key, v) :: c.sessions.filter (fun p => p.1 ≠ key) }

/-- `is_valid` (cache.rs lines 73-79). -/
def is_valid (c : Cache) (start_url : String) : Bool :=
  match c.client_info.start_url with
  | some cache_start_url => start_url == cache_start_url
  | none => false

/-- `get_access_token` (cache.rs lines 81-95); `Utc::now()` is the explicit `now`. -/
def get_access_token (c : Cache) (now : Int) : Option String :=
  match c.client_info.access_token, c.client_info.access_token_expires_at with
  | some access_token, some expires_at =>
      let expiration_time := expires_at - EXPIRATION_BUFFER
      if now < expiration_time then some access_token else none
  | _, _ => none

/-- `get_client_credentials` (cache.rs lines 102-120). -/
def get_client_credentials (c : Cache) (now : Int) : Option (String × String) :=
  match c.client_info.client_id, c.client_info.client_secret,
      c.client_info.client_secret_expires_at with
  | some client_id, some client_secret, some expires_at =>
      let expiration_time := expires_at - EXPIRATION_BUFFER
      if now < expiration_time then some (client_id, client_secret) else none
  | _, _, _ => none

/-- `get_refresh_token` (cache.rs lines 97-100): requires valid client credentials,
then returns the raw refresh token field. -/
def get_refresh_token (c : Cache) (now : Int) : Option String :=
  match get_client_credentials c now with
  | none => none
  | some _ => c.client_info.refresh_token

/-- `get_session` (cache.rs lines 122-134): entry under `"{account}-{role}"`, rejected
when `expires_after` is absent or `Utc::now() > expiry - EXPIRATION_BUFFER`. -/
def get_session (c : Cache) (now : Int) (account_id role_name : String) :
    Option CredentialsWrapper :=
  match sessions_get c (session_key account_id role_name) with
  | none => none
  | some credentials =>
      match credentials.expires_after with
      | some expiry => if now > expiry - EXPIRATION_BUFFER then none else some credentials
      | none => none

/-- `set_session` (cache.rs lines 156-161). -/
def set_session (c : Cache) (account_id role_name : String) (credentials : Credentials) :
    Cache :=
  sessions_insert c (session_key account_id role_name)
    (CredentialsWrapper.fromCredentials credentials)

/-- `set_client_info` (cache.rs lines 163-165). -/
def set_client_info (c : Cache) (client_info : ClientInformation) : Cache :=
  { c with client_info := client_info }

/-- `clear_sessions` (cache.rs lines 167-169): `sessions = HashMap::new()`. -/
def clear_sessions (c : Cache) : Cache :=
  { c with sessions := [] }

/-- `get_computed_client_info` (cache.rs lines 171-195). -/
def get_computed_client_info (c : Cache) (now : Int) : ClientInformation :=
  let cinfo := c.client_info
  if (get_client_credentials c now).isSome then
    let n1 : ClientInformation :=
      { ClientInformation.default with
        client_id := cinfo.client_id
        client_secret := cinfo.client_secret
        client_secret_expires_at := cinfo.client_secret_expires_at }
    if (get_access_token c now).isSome then
      let n2 : ClientInformation :=
        { n1 with
          access_token := cinfo.access_token
          access_token_expires_at := cinfo.access_token_expires_at }
      if (get_refresh_token c now).isSome then
        { n2 with refresh_token := cinfo.refresh_token }
      else n2
    else n1
  else ClientInformation.default

/-- `cache_reset` (cache.rs lines 197-200). -/
def cache_reset (_c : Cache) : Cache :=
  { client_info := ClientInformation.default, sessions := [] }

end Cache

/-! ### RateLimitLock: src/utils/lock.rs -/

/-- Modulus for the `u64` counter arithmetic. -/
def U64_MOD : Nat := 2 ^ 64

/-- `CounterLock { threshold: u64, count: u64, locked_at: Option<DateTime<Utc>> }`. -/
structure CounterLock where
  threshold : Nat
  count : Nat
  locked_at : Option Int
deriving Repr, DecidableEq

namespace CounterLock

/-- `is_locked` (lock.rs lines 13-15). -/
def is_locked (l : CounterLock) : Bool :=
  l.locked_at.isSome

/-- `increment` (lock.rs lines 16-21): `self.count += count` (u64, wrapping), then
`locked_at = Some(now)` when the updated count reaches the threshold. -/
def increment (l : CounterLock) (count : Nat) (now : Int) : CounterLock :=
  let newCount := (l.count + count) % U64_MOD
  { l with
    count := newCount
    locked_at := if l.threshold ≤ newCount then some now else l.locked_at }

/-- `reset` (lock.rs lines 22-25). -/
def reset (l : CounterLock) : CounterLock :=
  { l with count := 0, locked_at := none }

/-- The lock value `load_lock` builds when no lock file exists (lock.rs lines 83-88),
also the value it resets to on decay. -/
def fresh (threshold : Nat) : CounterLock :=
  ⟨threshold, 0, none⟩

/-- `n` successive unit increments (`increment(1)`) at time `now`. -/
def iterate_unit_increments (l : CounterLock) (now : Int) : Nat → CounterLock
  | 0 => l
  | n + 1 => (iterate_unit_increments l now n).increment 1 now

end CounterLock

/-- `DecayingJsonCounterLockProvider` (lock.rs lines 36-41); the path is irrelevant to
the embedded behaviour. -/
structure DecayingJsonCounterLockProvider where
  lock : Option CounterLock := none
  threshold : Nat
  lock_decay_duration : Option Int
deriving Repr, DecidableEq

namespace DecayingJsonCounterLockProvider

/-- `load_lock` (lock.rs lines 62-91) against the current lock-file content `stored`
(`none` = file absent) at time `now`.  Returns the updated provider and whether
`save_lock` ran during the load (the decay-reset path). -/
def load_lock (p : DecayingJsonCounterLockProvider) (stored : Option CounterLock)
    (now : Int) : DecayingJsonCounterLockProvider × Bool :=
  match stored with
  | some lk0 =>
      let reset_pair : CounterLock × Bool :=
        match p.lock_decay_duration, lk0.locked_at with
        | some ldd, some la =>
            if now ≥ la + ldd then (⟨p.threshold, 0, none⟩, true) else (lk0, false)
        | _, _ => (lk0, false)
      let lk := { reset_pair.1 with threshold := p.threshold }
      ({ p with lock := some lk }, reset_pair.2)
  | none =>
      ({ p with lock := some ⟨p.threshold, 0, none⟩ }, false)

end DecayingJsonCounterLockProvider

/-! ### Lock configuration: src/aws_sso/mod.rs -/

/-- `DEFAULT_CREATE_TOKEN_LOCK_THRESHOLD` (mod.rs line 22). -/
def DEFAULT_CREATE_TOKEN_LOCK_THRESHOLD : Nat := 5

/-- `DEFAULT_CREATE_TOKEN_LOCK_DECAY` (mod.rs line 23), in seconds. -/
def DEFAULT_CREATE_TOKEN_LOCK_DECAY : Int := 2 * 3600

/-- The `create_token_lock_decay` computation of `build_aws_sso_manager` (mod.rs lines
40-44): an explicitly configured zero decay maps to `None` (decay disabled); absence
maps to the default. -/
def create_token_lock_decay (config : Option Int) : Option Int :=
  match config with
  | some td => if td = 0 then none else some td
  | none => some DEFAULT_CREATE_TOKEN_LOCK_DECAY

/-- The lock-threshold computation of `build_aws_sso_manager` (mod.rs lines 46-49):
`filter(!= 0).or(Some(DEFAULT))`. -/
def effective_lock_threshold (config : Option Nat) : Nat :=
  match config with
  | some t => if t = 0 then DEFAULT_CREATE_TOKEN_LOCK_THRESHOLD else t
  | none => DEFAULT_CREATE_TOKEN_LOCK_THRESHOLD

/-! ### AuthManager: src/aws_sso/auth.rs

The remote OIDC/SSO API, the browser launcher and the cache-file write are modelled as
an environment of per-call outcomes (`SsoEnv`).  Each flow additionally emits an event
trace recording which collaborator calls and sleeps happened, in order. -/

/-- Observable events of one `AuthManager` flow. -/
inductive Ev where
  | registerClient
  | startDeviceAuthorization
  | openBrowser
  | initialSleep (d : Int)
  | createTokenPoll (attempt : Nat)
  | pollSleep (d : Int)
  | refreshCreateToken
  | getRoleCredentials (account_id role_name : String)
  | commitCall
deriving Repr, DecidableEq

/-- `Error` from auth.rs (lines 27-38); each constructor wraps the collaborator failure,
modelled as its message. -/
inductive AuthError where
  | OidcRegisterClient (msg : String)
  | OidcStartDeviceAuthorization (msg : String)
  | OidcWebBrowserApprove (msg : String)
  | OidcCreateToken (msg : String)
  | OidcTokenRefreshFailed (msg : String)
  | SsoGetRoleCredentials (msg : String)
  | Cache (msg : String)
deriving Repr, DecidableEq

/-- The fields of a successful `RegisterClient` response that auth.rs reads;
`client_secret_expires_at` carries the `DateTime::from_timestamp` result. -/
structure RegisterClientResponse where
  client_id : Option String
  client_secret : Option String
  client_secret_expires_at : Option Int
deriving Repr, DecidableEq

/-- The fields of a successful `StartDeviceAuthorization` response that auth.rs reads.
The three strings are non-optional here, matching the `expect`s in the source. -/
structure DeviceAuthResponse where
  user_code : String
  verification_uri_complete : String
  device_code : String
  interval : Int
deriving Repr, DecidableEq

/-- The fields of a successful `CreateToken` response that auth.rs reads. -/
structure CreateTokenResponse where
  access_token : Option String
  refresh_token : Option String
  expires_in : Int
deriving Repr, DecidableEq

/-- The fields of a successful `GetRoleCredentials` response that auth.rs reads
(non-optional matching the `expect`s on success). -/
structure RoleCredentialsResponse where
  access_key_id : String
  secret_access_key : String
  session_token : Option String
  expiration : Int
deriving Repr, DecidableEq

/-- Environment of one `AuthManager` invocation: the outcome of each collaborator call.
`create_token_poll` gives the outcome of the CreateToken poll with the given value of
the `attempts` counter; `commit_result` is the outcome of the cache-file write. -/
structure SsoEnv where
  now : Int
  register_client : Except String RegisterClientResponse
  start_device_authorization : Except String DeviceAuthResponse
  open_browser : Except String Unit
  create_token_poll : Nat → Except String CreateTokenResponse
  create_token_refresh : Except String CreateTokenResponse
  get_role_credentials : String → String → Except String RoleCredentialsResponse
  commit_result : Except String Unit

/-- The configuration fields of `AuthManager` (auth.rs lines 72-87). -/
structure AuthConfig where
  start_url : String
  initial_delay : Int
  max_attempts : Nat
  retry_interval : Int
  handle_cache : Bool
deriving Repr, DecidableEq

/-- Mutable state of one `AuthManager` invocation: the cache manager's in-memory
`Cache`, the on-disk cache file content (`none` = missing or unreadable), and the
manager's `client_info`. -/
structure AuthState where
  cache_mem : Cache := {}
  cache_disk : Option Cache := none
  client_info : ClientInformation := {}
deriving Repr, DecidableEq

/-- `load_cache` (auth.rs lines 279-290).  `cache_manager.load_cache()` succeeds iff a
readable cache file exists, replacing the in-memory cache; on failure, invalid start
URL, or `ignore_cache`, client id and secret are discarded.  Either way `start_url` is
then pinned to the configured one. -/
def load_cache (cfg : AuthConfig) (env : SsoEnv) (ignore_cache : Bool) (s : AuthState) :
    AuthState :=
  match s.cache_disk with
  | none =>
      { s with client_info :=
          { s.client_info with
            client_id := none, client_secret := none, start_url := some cfg.start_url } }
  | some disk =>
      if !(disk.is_valid cfg.start_url) || ignore_cache then
        { s with
          cache_mem := disk
          client_info :=
            { s.client_info with
              client_id := none, client_secret := none, start_url := some cfg.start_url } }
      else
        { s with
          cache_mem := disk
          client_info :=
            { disk.get_computed_client_info env.now with start_url := some cfg.start_url } }

/-- `register_client` (auth.rs lines 292-308). -/
def register_client (env : SsoEnv) (s : AuthState) : List Ev × Except AuthError AuthState :=
  ([Ev.registerClient],
   match env.register_client with
   | .error e => .error (.OidcRegisterClient e)
   | .ok r =>
       .ok { s with client_info :=
         { s.client_info with
           client_id := r.client_id
           client_secret := r.client_secret
           client_secret_expires_at := r.client_secret_expires_at } })

/-- The CreateToken polling loop of `create_access_token` (auth.rs lines 350-375):
poll, break `Ok` on success, break with the error once `attempts >= max_attempts`,
otherwise sleep `interval` and retry with `attempts + 1`. -/
def create_token_loop (env : SsoEnv) (max_attempts : Nat) (interval : Int)
    (attempts : Nat) : List Ev × Except String CreateTokenResponse :=
  match env.create_token_poll attempts with
  | .ok token => ([Ev.createTokenPoll attempts], .ok token)
  | .error err =>
      if h : attempts ≥ max_attempts then
        ([Ev.createTokenPoll attempts], .error err)
      else
        let rest := create_token_loop env max_attempts interval (attempts + 1)
        (Ev.createTokenPoll attempts :: Ev.pollSleep interval :: rest.1, rest.2)
termination_by max_attempts + 1 - attempts
decreasing_by omega

/-- `create_access_token` (auth.rs lines 310-382): StartDeviceAuthorization, browser
open, initial sleep, then the poll loop at
`interval = if retry_interval < device_interval then device_interval else retry_interval`;
on success the access/refresh tokens and `now + expires_in` are stored. -/
def create_access_token (cfg : AuthConfig) (env : SsoEnv) (s : AuthState) :
    List Ev × Except AuthError AuthState :=
  match env.start_device_authorization with
  | .error e => ([Ev.startDeviceAuthorization], .error (.OidcStartDeviceAuthorization e))
  | .ok device_auth =>
      match env.open_browser with
      | .error e =>
          ([Ev.startDeviceAuthorization, Ev.openBrowser], .error (.OidcWebBrowserApprove e))
      | .ok _ =>
          let device_interval := device_auth.interval
          let interval :=
            if cfg.retry_interval < device_interval then device_interval
            else cfg.retry_interval
          let looped := create_token_loop env cfg.max_attempts interval 0
          let pre := [Ev.startDeviceAuthorization, Ev.openBrowser,
                      Ev.initialSleep cfg.initial_delay]
          match looped.2 with
          | .error e => (pre ++ looped.1, .error (.OidcCreateToken e))
          | .ok token =>
              (pre ++ looped.1,
               .ok { s with client_info :=
                 { s.client_info with
                   access_token := token.access_token
                   refresh_token := token.refresh_token
                   access_token_expires_at := some (env.now + token.expires_in) } })

/-- `refresh_access_token` (auth.rs lines 384-410). -/
def refresh_access_token (env : SsoEnv) (s : AuthState) :
    List Ev × Except AuthError AuthState :=
  ([Ev.refreshCreateToken],
   match env.create_token_refresh with
   | .error e => .error (.OidcTokenRefreshFailed e)
   | .ok token =>
       .ok { s with client_info :=
         { s.client_info with
           access_token := token.access_token
           refresh_token := token.refresh_token
           access_token_expires_at := some (env.now + token.expires_in) } })

/-- Step 2 of `prepare_sso_and_resolve` (auth.rs lines 142-146): register a client when
id or secret is missing, then reset access and refresh tokens. -/
def ensure_client (env : SsoEnv) (s : AuthState) : List Ev × Except AuthError AuthState :=
  if s.client_info.client_id.isNone || s.client_info.client_secret.isNone then
    match register_client env s with
    | (tr, .error e) => (tr, .error e)
    | (tr, .ok s1) =>
        (tr, .ok { s1 with client_info :=
          { s1.client_info with access_token := none, refresh_token := none } })
  else ([], .ok s)

/-- Step 3 of `prepare_sso_and_resolve` (auth.rs lines 147-153): acquire an access token
by refresh when a refresh token exists, else by the device flow; either success clears
all cached sessions. -/
def ensure_access_token (cfg : AuthConfig) (env : SsoEnv) (s : AuthState) :
    List Ev × Except AuthError AuthState :=
  if s.client_info.access_token.isNone && s.client_info.refresh_token.isSome then
    match refresh_access_token env s with
    | (tr, .error e) => (tr, .error e)
    | (tr, .ok s1) => (tr, .ok { s1 with cache_mem := s1.cache_mem.clear_sessions })
  else if s.client_info.access_token.isNone then
    match create_access_token cfg env s with
    | (tr, .error e) => (tr, .error e)
    | (tr, .ok s1) => (tr, .ok { s1 with cache_mem := s1.cache_mem.clear_sessions })
  else ([], .ok s)

/-- Result of `prepare_sso_and_resolve`: final state, emitted event trace, the
resolver's own result when the resolver ran, and the overall result. -/
structure PrepareOut (T : Type) where
  state : AuthState
  trace : List Ev
  resolver_result : Option (Except AuthError T)
  result : Except AuthError T

/-- `prepare_sso_and_resolve` (auth.rs lines 131-162).  On resolver success the client
info is stored into the cache and, when the manager handles the cache, `commit` writes
the in-memory cache to disk; a commit failure surfaces as `Error::Cache`.  (A failed
`commit` is modelled as leaving the previous file content; no theorem below relies on
the file content after a failed commit.) -/
def prepare_sso_and_resolve {T : Type} (cfg : AuthConfig) (env : SsoEnv)
    (resolver : AuthState → AuthState × List Ev × Except AuthError T)
    (ignore_cache : Bool) (s0 : AuthState) : PrepareOut T :=
  let s := if cfg.handle_cache then load_cache cfg env ignore_cache s0 else s0
  match ensure_client env s with
  | (tr1, .error e) => ⟨s, tr1, none, .error e⟩
  | (tr1, .ok s1) =>
      match ensure_access_token cfg env s1 with
      | (tr2, .error e) => ⟨s1, tr1 ++ tr2, none, .error e⟩
      | (tr2, .ok s2) =>
          let resolved := resolver s2
          let s3 := resolved.1
          let tr3 := resolved.2.1
          match resolved.2.2 with
          | .error e => ⟨s3, tr1 ++ tr2 ++ tr3, some (.error e), .error e⟩
          | .ok v =>
              let s4 := { s3 with cache_mem := s3.cache_mem.set_client_info s3.client_info }
              if cfg.handle_cache then
                match env.commit_result with
                | .error ce =>
                    ⟨s4, tr1 ++ tr2 ++ tr3 ++ [Ev.commitCall], some (.ok v),
                     .error (.Cache ce)⟩
                | .ok _ =>
                    ⟨{ s4 with cache_disk := some s4.cache_mem },
                     tr1 ++ tr2 ++ tr3 ++ [Ev.commitCall], some (.ok v), .ok v⟩
              else ⟨s4, tr1 ++ tr2 ++ tr3, some (.ok v), .ok v⟩

/-- `resolve_credentials` (auth.rs lines 412-448). -/
def resolve_credentials (env : SsoEnv) (account_id role_name : String) :
    List Ev × Except AuthError Credentials :=
  ([Ev.getRoleCredentials account_id role_name],
   match env.get_role_credentials account_id role_name with
   | .error e => .error (.SsoGetRoleCredentials e)
   | .ok rc =>
       .ok (Credentials.new rc.access_key_id rc.secret_access_key rc.session_token
         (some rc.expiration) "role-credentials"))

/-- The resolver closure of `assume_role` (auth.rs lines 238-251): reuse a valid cached
session unless `refresh_sts_token`, else call GetRoleCredentials; then store the
session. -/
def assume_role_resolver (env : SsoEnv) (account_id role_name : String)
    (refresh_sts_token : Bool) (s : AuthState) :
    AuthState × List Ev × Except AuthError Credentials :=
  let step :=
    if refresh_sts_token then resolve_credentials env account_id role_name
    else
      match s.cache_mem.get_session env.now account_id role_name with
      | some cached => ([], .ok (Credentials.fromWrapper cached))
      | none => resolve_credentials env account_id role_name
  match step with
  | (tr, .error e) => (s, tr, .error e)
  | (tr, .ok credentials) =>
      ({ s with cache_mem := s.cache_mem.set_session account_id role_name credentials },
       tr, .ok credentials)

/-- `assume_role` (auth.rs lines 230-255). -/
def assume_role (cfg : AuthConfig) (env : SsoEnv) (account_id role_name : String)
    (refresh_sts_token ignore_cache : Bool) (s0 : AuthState) : PrepareOut Credentials :=
  prepare_sso_and_resolve cfg env
    (assume_role_resolver env account_id role_name refresh_sts_token) ignore_cache s0

/-! ### WorkerPool: src/utils/worker.rs

The pool's result collection is modelled by the multiset of result messages the workers
send: every `Execute` message is queued before the `Terminate` messages, each job is
dequeued by exactly one worker (num_workers ≥ 1; `execute` on a zero-worker pool panics
on the closed channel), each worker sends at most one message per job, and `wait`
collects every sent message before the final `Terminated` acknowledgements.  The order
of results across workers is nondeterministic; the model fixes submission order, which
is adequate for counting and per-id claims. -/

/-- Concrete type of a caught panic payload.  `panic!` with a string literal carries a
`&'static str`, a formatted `panic!` carries a `String`; only `std::panic::panic_any`
of a `Box<dyn ToString>` carries that exact type. -/
inductive PanicPayload where
  | staticStr (s : String)
  | ownedString (s : String)
  | boxDynToString (s : String)
deriving Repr, DecidableEq

/-- `panic_err.downcast_ref::<Box<dyn ToString>>()` (worker.rs line 114): succeeds only
when the payload's concrete type is exactly `Box<dyn ToString>`. -/
def downcast_box_dyn_to_string : PanicPayload → Option String
  | .boxDynToString s => some s
  | _ => none

/-- Behaviour of one job's `execute` call inside `catch_unwind`. -/
inductive JobOutcome (O E : Type) where
  | ok (out : O)
  | err (e : E)
  | panicked (payload : PanicPayload)
deriving Repr, DecidableEq

/-- A job submitted to the pool: its stable id and its execution behaviour. -/
structure PoolJob (O E : Type) where
  job_id : String
  outcome : JobOutcome O E
deriving Repr, DecidableEq

/-- `JobError` (worker.rs lines 22-26). -/
inductive JobError (E : Type) where
  | error (e : E)
  | panicked (s : String)
deriving Repr, DecidableEq

/-- `JobResult` (worker.rs lines 38-42). -/
structure JobResult (O E : Type) where
  job_id : String
  result : Except (JobError E) O
deriving Repr

/-- The result messages one worker sends for one dequeued job (worker.rs lines 91-127):
a `Result` message for a completed `execute`, a `Panicked` message only when the panic
payload downcasts to `Box<dyn ToString>`, and nothing otherwise. -/
def worker_messages {O E : Type} (j : PoolJob O E) : List (JobResult O E) :=
  match j.outcome with
  | .ok out => [⟨j.job_id, .ok out⟩]
  | .err e => [⟨j.job_id, .error (.error e)⟩]
  | .panicked payload =>
      match downcast_box_dyn_to_string payload with
      | some s => [⟨j.job_id, .error (.panicked s)⟩]
      | none => []

/-- The results `ThreadPool::wait` (worker.rs lines 203-244) returns for the submitted
jobs, as a multiset fixed to submission order. -/
def thread_pool_wait_results {O E : Type} (jobs : List (PoolJob O E)) :
    List (JobResult O E) :=
  jobs.foldr (fun j acc => worker_messages j ++ acc) []

/-! ### BatchResolver: src/commands/batch/mod.rs -/

/-- Outcome of one `assume_role` call for a candidate pair, as `exec_batch`
distinguishes them (mod.rs lines 146-157): success, an
`AwsSsoManagerError::SsoGetRoleCredentials` authorization failure, or any other
`AuthManager` error. -/
inductive AssumeOutcome where
  | ok (credentials : Credentials)
  | authError (msg : String)
  | otherError (e : AuthError)

/-- `credentials_map.contains_key(&account_id)` on the modelled map. -/
def contains_key (m : List (String × Credentials)) (k : String) : Bool :=
  m.any (fun p => p.1 == k)

/-- The expansion of `account_ids × role_order` into candidate pairs (mod.rs lines
94-102): account-major, roles in `role_order` order. -/
def expand_candidates (account_ids role_order : List String) : List (String × String) :=
  account_ids.flatMap (fun aid => role_order.map (fun r => (aid, r)))

/-- The credential-resolution loop of `exec_batch` (mod.rs lines 138-159): skip a
candidate whose account already has credentials; on success insert; on a
GetRoleCredentials authorization error log and continue; on any other error abort the
batch.  Also returns the trace of candidates actually passed to `assume_role`. -/
def exec_batch_resolve (outcome : String → String → AssumeOutcome) :
    List (String × String) → List (String × Credentials) →
    List (String × String) × Except AuthError (List (String × Credentials))
  | [], acc => ([], .ok acc)
  | (aid, rn) :: rest, acc =>
      if contains_key acc aid then exec_batch_resolve outcome rest acc
      else
        match outcome aid rn with
        | .ok c =>
            let next := exec_batch_resolve outcome rest (acc ++ [(aid, c)])
            ((aid, rn) :: next.1, next.2)
        | .authError _ =>
            let next := exec_batch_resolve outcome rest acc
            ((aid, rn) :: next.1, next.2)
        | .otherError e => ([(aid, rn)], .error e)

/-- Spec-side rule for one account (spec section 4.4): try the roles of `role_order` in
order; the first success wins and ends the account; an authorization failure moves to
the next role; any other error aborts.  Returns the attempted roles and the result. -/
def first_success_role (outcome : String → String → AssumeOutcome) (aid : String) :
    List String → List String × Except AuthError (Option Credentials)
  | [] => ([], .ok none)
  | r :: rs =>
      match outcome aid r with
      | .ok c => ([r], .ok (some c))
      | .authError _ =>
          let next := first_success_role outcome aid rs
          (r :: next.1, next.2)
      | .otherError e => ([r], .error e)

/-- Spec-side batch resolution: accounts processed independently in order, each by
`first_success_role`; accounts whose every role fails authorization are dropped. -/
def spec_batch_resolve (outcome : String → String → AssumeOutcome)
    (role_order : List String) :
    List String → List (String × String) × Except AuthError (List (String × Credentials))
  | [] => ([], .ok [])
  | aid :: rest =>
      match first_success_role outcome aid role_order with
      | (tr, .error e) => (tr.map (fun r => (aid, r)), .error e)
      | (tr, .ok none) =>
          let next := spec_batch_resolve outcome role_order rest
          (tr.map (fun r => (aid, r)) ++ next.1, next.2)
      | (tr, .ok (some c)) =>
          let next := spec_batch_resolve outcome role_order rest
          (tr.map (fun r => (aid, r)) ++ next.1, next.2.map (fun m => (aid, c) :: m))

/-! ### RateLimitLock guard on the token-creation path -/

/-- Result of one guarded token-creation attempt. -/
inductive GuardedAttempt (T : Type) where
  | lockError
  | provider (r : Except String T)
deriving Repr

/-- Modelled from the spec: the RateLimitLock guard around one attempt at the
device-flow/refresh token-creation path.  The lock-integrated `AuthManager` revision is
missing from the sources: `build_aws_sso_manager` (src/aws_sso/mod.rs lines 46-69)
constructs a `DecayingJsonCounterLockProvider` and passes it to `AuthManager::new`, but
the `AuthManager` in src/aws_sso/auth.rs predates the lock parameter.  Spec sections
4.2/4.3: "Each attempt at the expensive device-flow/refresh path first consults
RateLimitLock: if locked, short-circuit with a lock error instead of calling the
provider; otherwise increment the lock counter for the attempt."  Returns the updated
lock, whether the provider was called, and the attempt result. -/
def rate_limited_attempt {T : Type} (lock : CounterLock) (now : Int)
    (call : Unit → Except String T) : CounterLock × Bool × GuardedAttempt T :=
  if lock.is_locked then (lock, false, .lockError)
  else (lock.increment 1 now, true, .provider (call ()))

/-- Runs `n` guarded attempts in sequence, returning the final lock and, for each
attempt, whether the provider was called. -/
def run_guarded_attempts {T : Type} (now : Int) (call : Unit → Except String T) :
    Nat → CounterLock → CounterLock × List Bool
  | 0, lock => (lock, [])
  | n + 1, lock =>
      let step := rate_limited_attempt lock now call
      let rest := run_guarded_attempts now call n step.1
      (rest.1, step.2.1 :: rest.2)

/-! ### Named forms of the records `get_computed_client_info` builds -/

/-- The record `get_computed_client_info` returns when only the client credentials are
valid (its `n1`). -/
def computed_client_only (ci : ClientInformation) : ClientInformation :=
  { ClientInformation.default with
    client_id := ci.client_id
    client_secret := ci.client_secret
    client_secret_expires_at := ci.client_secret_expires_at }

/-- The record `get_computed_client_info` returns when client credentials and access
token are valid but the refresh token is not trusted (its `n2`). -/
def computed_with_access (ci : ClientInformation) : ClientInformation :=
  { computed_client_only ci with
    access_token := ci.access_token
    access_token_expires_at := ci.access_token_expires_at }

/-- The record `get_computed_client_info` returns when the whole trust chain holds. -/
def computed_full (ci : ClientInformation) : ClientInformation :=
  { computed_with_access ci with refresh_token := ci.refresh_token }

/-! ### Sample data used by witnesses and counterexamples -/

/-- A cache holding one session whose expiry is exactly `now + EXPIRATION_BUFFER`
when read at time 700. -/
def cacheC5 : Cache :=
  { sessions := [("1-r", ⟨"AKIA", "SECRET", none, some 1000⟩)] }

/-- A configuration with the production default `max_attempts = 10`. -/
def cfgSample : AuthConfig :=
  { start_url := "https://x.awsapps.com/start"
    initial_delay := 10
    max_attempts := 10
    retry_interval := 5
    handle_cache := true }

/-- An environment whose refresh-token CreateToken call succeeds and whose other
remote calls are unused. -/
def envRefreshOk : SsoEnv :=
  { now := 0
    register_client := .error "unused"
    start_device_authorization := .error "unused"
    open_browser := .ok ()
    create_token_poll := fun _ => .error "unused"
    create_token_refresh := .ok ⟨some "tok", some "ref", 3600⟩
    get_role_credentials := fun _ _ => .error "unused"
    commit_result := .ok () }

/-- Number of CreateToken poll events in a trace. -/
def count_polls (tr : List Ev) : Nat :=
  (tr.filter fun ev =>
    match ev with
    | Ev.createTokenPoll _ => true
    | _ => false).length

/-- A device-authorization response with a device-reported interval of 7. -/
def daSample : DeviceAuthResponse :=
  { user_code := "WXYZ-1234"
    verification_uri_complete := "https://device.sso/approve"
    device_code := "dc-1"
    interval := 7 }

/-- An environment whose device flow reaches the poll loop and whose every CreateToken
poll fails. -/
def envAllFail : SsoEnv :=
  { now := 0
    register_client := .ok ⟨some "cid", some "csec", some 100000⟩
    start_device_authorization := .ok daSample
    open_browser := .ok ()
    create_token_poll := fun _ => .error "authorization_pending"
    create_token_refresh := .error "unused"
    get_role_credentials := fun _ _ => .error "unused"
    commit_result := .ok () }

/-- A fully valid client cache snapshot at time 0. -/
def cacheC8 : Cache :=
  { client_info :=
      { start_url := some "https://x.awsapps.com/start"
        client_secret_expires_at := some 100000
        access_token_expires_at := some 90000
        client_id := some "cid"
        client_secret := some "csec"
        access_token := some "atok"
        refresh_token := some "rtok" }
    sessions := [] }

/-- A concrete batch outcome oracle: account "1" succeeds on its first role, account
"2" is denied the first role but succeeds on "ro", account "3" is denied every role. -/
def outcomeC9 : String → String → AssumeOutcome := fun aid r =>
  if aid = "1" then AssumeOutcome.ok ⟨"K1", "S1", none, none, "role-credentials"⟩
  else if aid = "2" ∧ r = "ro" then
    AssumeOutcome.ok ⟨"K2", "S2", none, none, "role-credentials"⟩
  else AssumeOutcome.authError "denied"

/-- An environment with a fully valid cached client where GetRoleCredentials is
denied. -/
def envDenied : SsoEnv :=
  { now := 0
    register_client := .error "unused"
    start_device_authorization := .error "unused"
    open_browser := .ok ()
    create_token_poll := fun _ => .error "unused"
    create_token_refresh := .error "unused"
    get_role_credentials := fun _ _ => .error "denied"
    commit_result := .ok () }

/-- `envDenied` with GetRoleCredentials succeeding. -/
def envC1ok : SsoEnv :=
  { envDenied with get_role_credentials := fun _ _ => .ok ⟨"AKIA", "SK", some "st", 1234⟩ }

/-- An initial state whose cache file holds the fully valid snapshot `cacheC8`. -/
def stateC1 : AuthState :=
  { cache_mem := {}, cache_disk := some cacheC8, client_info := {} }

/-- A state holding a cached session and a refresh token but no access token. -/
def stateC7 : AuthState :=
  { cache_mem := { sessions := [("1-r", ⟨"AK", "SK", none, some 1000000⟩)] }
    cache_disk := none
    client_info := { refresh_token := some "r0" } }

/-- The state `ensure_access_token` produces from `stateC7` under `envRefreshOk`. -/
def stateC7After : AuthState :=
  { cache_mem := { client_info := {}, sessions := [] }
    cache_disk := none
    client_info :=
      { start_url := none
        client_secret_expires_at := none
        access_token_expires_at := some 3600
        client_id := none
        client_secret := none
        access_token := some "tok"
        refresh_token := some "ref" } }

end AwsAuth

namespace AwsAuth

/-! ## Theorems -/

/-- C10: converting a `Credentials` value to `CredentialsWrapper` and back through the
two `From` implementations preserves `access_key_id`, `secret_access_key`,
`session_token` and the expiry, so a cache hit returns the credentials originally
stored. -/
theorem credentials_wrapper_roundtrip (c : Credentials) :
    (Credentials.fromWrapper (CredentialsWrapper.fromCredentials c)).access_key_id =
        c.access_key_id ∧
    (Credentials.fromWrapper (CredentialsWrapper.fromCredentials c)).secret_access_key =
        c.secret_access_key ∧
    (Credentials.fromWrapper (CredentialsWrapper.fromCredentials c)).session_token =
        c.session_token ∧
    (Credentials.fromWrapper (CredentialsWrapper.fromCredentials c)).expiry = c.expiry :=
  ⟨rfl, rfl, rfl, rfl⟩

/-- C5 counterexample: at `now = expiry - 5min` exactly, `get_session` still returns
the entry (`cache.rs` rejects only `now > expiry - EXPIRATION_BUFFER`), but the
claim's strict condition `expires_after - 5min > now` is false, so the claimed
equivalence fails at this input. -/
theorem get_session_boundary_counterexample :
    (Cache.get_session cacheC5 700 "1" "r").isSome = true ∧
    ¬ ((1000 : Int) - EXPIRATION_BUFFER > 700) :=
  ⟨by decide, by decide⟩

/-- C5 (amended): `get_session account role` returns `some cw` iff `cw` is stored under
the key `"{account}-{role}"`, its `expires_after` is present, and
`expires_after - 5min ≥ now` (non-strict); an entry with no `expires_after` is never
returned. -/
theorem get_session_characterization (c : Cache) (now : Int) (aid rn : String)
    (cw : CredentialsWrapper) :
    Cache.get_session c now aid rn = some cw ↔
      c.sessions.lookup (Cache.session_key aid rn) = some cw ∧
      ∃ e, cw.expires_after = some e ∧ e - EXPIRATION_BUFFER ≥ now := by
  unfold Cache.get_session Cache.sessions_get
  cases h : c.sessions.lookup (Cache.session_key aid rn) with
  | none => simp
  | some cred =>
      dsimp only
      cases he : cred.expires_after with
      | none =>
          dsimp only
          constructor
          · intro hcontra
            exact absurd hcontra (by simp)
          · rintro ⟨hc, x, hx, -⟩
            obtain rfl := Option.some.inj hc
            rw [he] at hx
            exact absurd hx (by simp)
      | some e =>
          dsimp only
          by_cases hgt : now > e - EXPIRATION_BUFFER
          · rw [if_pos hgt]
            constructor
            · intro hcontra
              exact absurd hcontra (by simp)
            · rintro ⟨hc, x, hx, hge⟩
              obtain rfl := Option.some.inj hc
              rw [he] at hx
              obtain rfl := Option.some.inj hx
              exfalso
              omega
          · rw [if_neg hgt]
            constructor
            · intro hc
              obtain rfl := Option.some.inj hc
              exact ⟨rfl, e, he, by omega⟩
            · rintro ⟨hc, -⟩
              exact hc

/-- C2 (code evaluated at the failing input): a pool given two jobs, the second of
which panics with an ordinary `panic!` payload of concrete type `String`, returns only
one result and no result at all for the panicked job id — the
`downcast_ref::<Box<dyn ToString>>()` in the worker fails for standard panic payloads,
so no `Panicked` message is ever sent and the claimed `N` results become `N - 1`. -/
theorem thread_pool_drops_standard_panic_result :
    thread_pool_wait_results
        [(⟨"a", .ok 0⟩ : PoolJob Nat String), ⟨"b", .panicked (.ownedString "boom")⟩] =
      [⟨"a", .ok 0⟩] ∧
    (thread_pool_wait_results
        [(⟨"a", .ok 0⟩ : PoolJob Nat String),
         ⟨"b", .panicked (.ownedString "boom")⟩]).length = 1 ∧
    (thread_pool_wait_results
        [(⟨"a", .ok 0⟩ : PoolJob Nat String),
         ⟨"b", .panicked (.ownedString "boom")⟩]).all (fun r => r.job_id != "b") = true :=
  ⟨rfl, rfl, rfl⟩

/-- Helper for C6: after `k ≤ t` unit increments of a fresh lock with threshold `t`
(`1 ≤ t < 2^64`), the count is `k` and the lock is locked exactly when `k = t`. -/
theorem iterate_unit_increments_threshold (l : CounterLock) (now : Int) (k : Nat) :
    (l.iterate_unit_increments now k).threshold = l.threshold := by
  induction k with
  | zero => rfl
  | succ k ih =>
      simp only [CounterLock.iterate_unit_increments, CounterLock.increment, ih]

theorem iterate_unit_increments_fresh (t : Nat) (now : Int) (k : Nat)
    (h1 : 1 ≤ t) (ht : t < U64_MOD) (hk : k ≤ t) :
    ((CounterLock.fresh t).iterate_unit_increments now k).count = k ∧
    ((CounterLock.fresh t).iterate_unit_increments now k).locked_at =
      (if t ≤ k then some now else none) := by
  induction k with
  | zero =>
      refine ⟨rfl, ?_⟩
      rw [if_neg (by omega)]
      rfl
  | succ k ih =>
      obtain ⟨hc, hl⟩ := ih (by omega)
      have hthr : ((CounterLock.fresh t).iterate_unit_increments now k).threshold = t :=
        iterate_unit_increments_threshold (CounterLock.fresh t) now k
      simp only [CounterLock.iterate_unit_increments, CounterLock.increment, hc, hl, hthr]
      have hmod : (k + 1) % U64_MOD = k + 1 := Nat.mod_eq_of_lt (by omega)
      rw [hmod]
      refine ⟨rfl, ?_⟩
      by_cases hle : t ≤ k + 1
      · rw [if_pos hle, if_pos hle]
      · rw [if_neg hle, if_neg hle, if_neg (by omega)]

/-- C6: `is_locked` holds iff `locked_at` is set; `increment` sets `locked_at` exactly
when the updated count reaches the threshold (so a fresh lock is locked after exactly
`threshold` unit increments and not after `threshold - 1`); `reset` yields count 0 and
no `locked_at`; with a configured decay, `load_lock` at `now ≥ locked_at + decay`
clears `locked_at` and the count; and a configured zero decay maps to no decay
duration, under which `load_lock` never auto-clears. -/
theorem counter_lock_lifecycle :
    (∀ l : CounterLock, l.is_locked = l.locked_at.isSome)
    ∧ (∀ (l : CounterLock) (n : Nat) (now : Int),
        (l.increment n now).locked_at =
          (if l.threshold ≤ (l.count + n) % U64_MOD then some now else l.locked_at))
    ∧ (∀ (t : Nat) (now : Int), 1 ≤ t → t < U64_MOD →
        ((CounterLock.fresh t).iterate_unit_increments now t).is_locked = true ∧
        ((CounterLock.fresh t).iterate_unit_increments now (t - 1)).is_locked = false)
    ∧ (∀ l : CounterLock, l.reset.count = 0 ∧ l.reset.locked_at = none)
    ∧ (∀ (p : DecayingJsonCounterLockProvider) (stored : CounterLock)
          (la ldd now : Int),
        p.lock_decay_duration = some ldd → stored.locked_at = some la →
        now ≥ la + ldd →
        (p.load_lock (some stored) now).1.lock = some ⟨p.threshold, 0, none⟩)
    ∧ (create_token_lock_decay (some 0) = none
       ∧ ∀ (p : DecayingJsonCounterLockProvider) (stored : CounterLock) (now : Int),
           p.lock_decay_duration = none →
           (p.load_lock (some stored) now).1.lock =
             some { stored with threshold := p.threshold }) := by
  refine ⟨fun l => rfl, fun l n now => rfl, ?_, fun l => ⟨rfl, rfl⟩, ?_, rfl, ?_⟩
  · intro t now h1 ht
    obtain ⟨-, hl⟩ := iterate_unit_increments_fresh t now t h1 ht le_rfl
    obtain ⟨-, hl2⟩ := iterate_unit_increments_fresh t now (t - 1) h1 ht (by omega)
    constructor
    · rw [CounterLock.is_locked, hl, if_pos le_rfl]
      rfl
    · rw [CounterLock.is_locked, hl2, if_neg (by omega)]
      rfl
  · intro p stored la ldd now hd hla hnow
    simp only [DecayingJsonCounterLockProvider.load_lock, hd, hla, ge_iff_le,
      if_pos hnow]
  · intro p stored now hd
    simp only [DecayingJsonCounterLockProvider.load_lock, hd]

/-- C6 witness: the lifecycle theorem applied at threshold 5 and a concrete decayed
provider. -/
theorem counter_lock_lifecycle_witness :
    ((CounterLock.fresh 5).iterate_unit_increments 0 5).is_locked = true ∧
    ((CounterLock.fresh 5).iterate_unit_increments 0 4).is_locked = false ∧
    (DecayingJsonCounterLockProvider.load_lock ⟨none, 7, some 3600⟩
        (some ⟨5, 9, some 100⟩) 3700).1.lock = some ⟨7, 0, none⟩ ∧
    (DecayingJsonCounterLockProvider.load_lock ⟨none, 7, none⟩
        (some ⟨5, 9, some 100⟩) 999999).1.lock = some ⟨7, 9, some 100⟩ := by
  refine ⟨(counter_lock_lifecycle.2.2.1 5 0 (by norm_num) (by norm_num [U64_MOD])).1, ?_, ?_, ?_⟩
  · exact (counter_lock_lifecycle.2.2.1 5 0 (by norm_num) (by norm_num [U64_MOD])).2
  · exact counter_lock_lifecycle.2.2.2.2.1 ⟨none, 7, some 3600⟩ ⟨5, 9, some 100⟩
      100 3600 3700 rfl rfl (by norm_num)
  · exact counter_lock_lifecycle.2.2.2.2.2.2 ⟨none, 7, none⟩ ⟨5, 9, some 100⟩ 999999 rfl

/-- C4 (the lock-guarded token path, modelled from the spec): every attempt at the
device-flow/refresh token-creation path first consults the lock — when locked the
attempt returns a lock error and the provider is not called; when unlocked the attempt
increments the counter by one and calls the provider.  With threshold 5, five recorded
attempts from a fresh lock all reach the provider, the sixth short-circuits with a lock
error, and after an explicit `reset` the next attempt proceeds normally. -/
theorem rate_limited_attempt_guard :
    (∀ (T : Type) (lock : CounterLock) (now : Int) (call : Unit → Except String T),
        lock.is_locked = true →
        rate_limited_attempt lock now call = (lock, false, GuardedAttempt.lockError))
    ∧ (∀ (T : Type) (lock : CounterLock) (now : Int) (call : Unit → Except String T),
        lock.is_locked = false →
        rate_limited_attempt lock now call =
          (lock.increment 1 now, true, GuardedAttempt.provider (call ())))
    ∧ (∀ (T : Type) (now : Int) (call : Unit → Except String T),
        (run_guarded_attempts now call 5 (CounterLock.fresh 5)).2 =
          [true, true, true, true, true]
        ∧ (run_guarded_attempts now call 5 (CounterLock.fresh 5)).1.is_locked = true
        ∧ (rate_limited_attempt (run_guarded_attempts now call 5 (CounterLock.fresh 5)).1
            now call).2 = (false, GuardedAttempt.lockError)
        ∧ (rate_limited_attempt
            ((run_guarded_attempts now call 5 (CounterLock.fresh 5)).1.reset)
            now call).2.1 = true) := by
  refine ⟨?_, ?_, ?_⟩
  · intro T lock now call h
    simp [rate_limited_attempt, h]
  · intro T lock now call h
    simp [rate_limited_attempt, h]
  · intro T now call
    simp [run_guarded_attempts, rate_limited_attempt, CounterLock.increment,
      CounterLock.is_locked, CounterLock.fresh, CounterLock.reset, U64_MOD]

/-- C4 witness: the guard theorem applied at a concrete locked lock, a concrete
unlocked lock, and the concrete threshold-5 scenario. -/
theorem rate_limited_attempt_guard_witness :
    ((⟨5, 5, some 0⟩ : CounterLock).is_locked = true ∧
      rate_limited_attempt (⟨5, 5, some 0⟩ : CounterLock) 0
          (fun _ => (.error "throttle" : Except String Unit)) =
        (⟨5, 5, some 0⟩, false, GuardedAttempt.lockError)) ∧
    (run_guarded_attempts 0 (fun _ => (.error "throttle" : Except String Unit)) 5
        (CounterLock.fresh 5)).2 = [true, true, true, true, true] := by
  refine ⟨⟨rfl, rate_limited_attempt_guard.1 Unit ⟨5, 5, some 0⟩ 0 _ rfl⟩, ?_⟩
  exact (rate_limited_attempt_guard.2.2 Unit 0 (fun _ => .error "throttle")).1

/-- Helper: `get_session` on a cache with no sessions is always `none`. -/
theorem get_session_clear_sessions (c : Cache) (now : Int) (aid rn : String) :
    (c.clear_sessions).get_session now aid rn = none := rfl

/-- C7: whenever the token-acquisition step runs with no usable access token and
succeeds — by `refresh_access_token` or by the full device flow in
`create_access_token` — all cached sessions are cleared, so `get_session` returns
`none` for every key that was cached before the call. -/
theorem token_acquisition_clears_sessions (cfg : AuthConfig) (env : SsoEnv)
    (s s1 : AuthState) (tr : List Ev)
    (hnone : s.client_info.access_token = none)
    (hok : ensure_access_token cfg env s = (tr, .ok s1)) :
    ∀ (now : Int) (aid rn : String), s1.cache_mem.get_session now aid rn = none := by
  intro now aid rn
  unfold ensure_access_token at hok
  rw [hnone] at hok
  simp only [Option.isNone_none, Bool.true_and] at hok
  by_cases hr : s.client_info.refresh_token.isSome
  · rw [if_pos hr] at hok
    cases h : refresh_access_token env s with
    | mk tr0 r0 =>
        rw [h] at hok
        cases r0 with
        | error e => simp at hok
        | ok s2 =>
            have hs : ({ s2 with cache_mem := s2.cache_mem.clear_sessions } : AuthState) = s1 :=
              Except.ok.inj (congrArg Prod.snd hok)
            rw [← hs]
            exact get_session_clear_sessions s2.cache_mem now aid rn
  · rw [if_neg hr] at hok
    cases h : create_access_token cfg env s with
    | mk tr0 r0 =>
        rw [h] at hok
        cases r0 with
        | error e => simp at hok
        | ok s2 =>
            have hs : ({ s2 with cache_mem := s2.cache_mem.clear_sessions } : AuthState) = s1 :=
              Except.ok.inj (congrArg Prod.snd hok)
            rw [← hs]
            exact get_session_clear_sessions s2.cache_mem now aid rn

/-- C7 witness: the clearing theorem applied to a concrete refresh-path run that
starts with a cached session under the key "1-r". -/
theorem token_acquisition_clears_sessions_witness :
    stateC7.client_info.access_token = none ∧
    ensure_access_token cfgSample envRefreshOk stateC7 =
      ([Ev.refreshCreateToken], .ok stateC7After) ∧
    stateC7After.cache_mem.get_session 0 "1" "r" = none := by
  refine ⟨rfl, rfl, ?_⟩
  exact token_acquisition_clears_sessions cfgSample envRefreshOk stateC7 stateC7After
    [Ev.refreshCreateToken] rfl rfl 0 "1" "r"

/-- Helper: `get_client_credentials` depends only on the client id, secret and secret
expiry fields of the cache. -/
theorem get_client_credentials_congr (a b : Cache) (now : Int)
    (h1 : b.client_info.client_id = a.client_info.client_id)
    (h2 : b.client_info.client_secret = a.client_info.client_secret)
    (h3 : b.client_info.client_secret_expires_at = a.client_info.client_secret_expires_at) :
    Cache.get_client_credentials b now = Cache.get_client_credentials a now := by
  unfold Cache.get_client_credentials
  rw [h1, h2, h3]

/-- Helper: `get_access_token` depends only on the access token and its expiry. -/
theorem get_access_token_congr (a b : Cache) (now : Int)
    (h1 : b.client_info.access_token = a.client_info.access_token)
    (h2 : b.client_info.access_token_expires_at = a.client_info.access_token_expires_at) :
    Cache.get_access_token b now = Cache.get_access_token a now := by
  unfold Cache.get_access_token
  rw [h1, h2]

/-- Helper: `get_computed_client_info` as a three-way case split over the named
records. -/
theorem get_computed_client_info_eq (c : Cache) (now : Int) :
    Cache.get_computed_client_info c now =
      (if (Cache.get_client_credentials c now).isSome then
        (if (Cache.get_access_token c now).isSome then
          (if (Cache.get_refresh_token c now).isSome then computed_full c.client_info
           else computed_with_access c.client_info)
         else computed_client_only c.client_info)
       else ClientInformation.default) := rfl

/-- C8: `get_computed_client_info` enforces the trust chain — it is all-empty unless
`get_client_credentials` succeeds, copies the client fields when it does, copies the
access-token fields only under a valid access token, exposes the refresh token only
when `get_refresh_token` succeeds, and is idempotent: recomputing on a cache whose
client info is its own output (at the same instant) returns the same record. -/
theorem get_computed_client_info_trust_chain (c : Cache) (now : Int) :
    (Cache.get_client_credentials c now = none →
        Cache.get_computed_client_info c now = ClientInformation.default)
    ∧ ((Cache.get_client_credentials c now).isSome →
        (Cache.get_computed_client_info c now).client_id = c.client_info.client_id ∧
        (Cache.get_computed_client_info c now).client_secret = c.client_info.client_secret ∧
        (Cache.get_computed_client_info c now).client_secret_expires_at =
          c.client_info.client_secret_expires_at)
    ∧ ((Cache.get_client_credentials c now).isSome →
        (Cache.get_access_token c now).isSome →
        (Cache.get_computed_client_info c now).access_token = c.client_info.access_token ∧
        (Cache.get_computed_client_info c now).access_token_expires_at =
          c.client_info.access_token_expires_at)
    ∧ ((Cache.get_computed_client_info c now).client_id.isSome →
        (Cache.get_client_credentials c now).isSome)
    ∧ ((Cache.get_computed_client_info c now).access_token.isSome →
        (Cache.get_access_token c now).isSome)
    ∧ ((Cache.get_computed_client_info c now).refresh_token.isSome →
        (Cache.get_refresh_token c now).isSome)
    ∧ (∀ sessions2 : List (String × CredentialsWrapper),
        Cache.get_computed_client_info
            { client_info := Cache.get_computed_client_info c now, sessions := sessions2 }
            now =
          Cache.get_computed_client_info c now) := by
  by_cases hcc : (Cache.get_client_credentials c now).isSome
  case neg =>
    have hout : Cache.get_computed_client_info c now = ClientInformation.default := by
      rw [get_computed_client_info_eq, if_neg hcc]
    refine ⟨fun _ => hout, fun h => absurd h hcc, fun h _ => absurd h hcc, ?_, ?_, ?_, ?_⟩
    · intro h
      rw [hout] at h
      exact absurd h (by simp [ClientInformation.default])
    · intro h
      rw [hout] at h
      exact absurd h (by simp [ClientInformation.default])
    · intro h
      rw [hout] at h
      exact absurd h (by simp [ClientInformation.default])
    · intro s2
      rw [hout]
      have h2 : Cache.get_client_credentials ⟨ClientInformation.default, s2⟩ now = none :=
        rfl
      rw [get_computed_client_info_eq, if_neg (by simp [h2])]
  case pos =>
    obtain ⟨cp, hcp⟩ := Option.isSome_iff_exists.mp hcc
    by_cases hat : (Cache.get_access_token c now).isSome
    · by_cases hrt : (Cache.get_refresh_token c now).isSome
      · have hout : Cache.get_computed_client_info c now = computed_full c.client_info := by
          rw [get_computed_client_info_eq, if_pos hcc, if_pos hat, if_pos hrt]
        refine ⟨?_, fun _ => ?_, fun _ _ => ?_, fun _ => hcc, fun _ => hat, fun _ => hrt, ?_⟩
        · intro hn
          rw [hn] at hcc
          simp at hcc
        · rw [hout]
          exact ⟨rfl, rfl, rfl⟩
        · rw [hout]
          exact ⟨rfl, rfl⟩
        · intro s2
          rw [hout]
          have e1 : Cache.get_client_credentials ⟨computed_full c.client_info, s2⟩ now =
              Cache.get_client_credentials c now :=
            get_client_credentials_congr c ⟨computed_full c.client_info, s2⟩ now rfl rfl rfl
          have e2 : Cache.get_access_token ⟨computed_full c.client_info, s2⟩ now =
              Cache.get_access_token c now :=
            get_access_token_congr c ⟨computed_full c.client_info, s2⟩ now rfl rfl
          have e3 : Cache.get_refresh_token ⟨computed_full c.client_info, s2⟩ now =
              Cache.get_refresh_token c now := by
            unfold Cache.get_refresh_token
            rw [e1]
            cases Cache.get_client_credentials c now with
            | none => rfl
            | some q => rfl
          rw [get_computed_client_info_eq, e1, e2, e3, if_pos hcc, if_pos hat, if_pos hrt]
          rfl
      · have hout : Cache.get_computed_client_info c now =
            computed_with_access c.client_info := by
          rw [get_computed_client_info_eq, if_pos hcc, if_pos hat, if_neg hrt]
        refine ⟨?_, fun _ => ?_, fun _ _ => ?_, fun _ => hcc, fun _ => hat, ?_, ?_⟩
        · intro hn
          rw [hn] at hcc
          simp at hcc
        · rw [hout]
          exact ⟨rfl, rfl, rfl⟩
        · rw [hout]
          exact ⟨rfl, rfl⟩
        · intro h
          rw [hout] at h
          exact absurd h
            (by simp [computed_with_access, computed_client_only, ClientInformation.default])
        · intro s2
          rw [hout]
          have e1 : Cache.get_client_credentials ⟨computed_with_access c.client_info, s2⟩
              now = Cache.get_client_credentials c now :=
            get_client_credentials_congr c ⟨computed_with_access c.client_info, s2⟩ now
              rfl rfl rfl
          have e2 : Cache.get_access_token ⟨computed_with_access c.client_info, s2⟩ now =
              Cache.get_access_token c now :=
            get_access_token_congr c ⟨computed_with_access c.client_info, s2⟩ now rfl rfl
          have e3 : Cache.get_refresh_token ⟨computed_with_access c.client_info, s2⟩ now =
              none := by
            unfold Cache.get_refresh_token
            rw [e1, hcp]
            rfl
          rw [get_computed_client_info_eq, e1, e2, e3, if_pos hcc, if_pos hat,
            if_neg (by simp)]
          rfl
    · have hout : Cache.get_computed_client_info c now =
          computed_client_only c.client_info := by
        rw [get_computed_client_info_eq, if_pos hcc, if_neg hat]
      refine ⟨?_, fun _ => ?_, fun _ h => absurd h hat, fun _ => hcc, ?_, ?_, ?_⟩
      · intro hn
        rw [hn] at hcc
        simp at hcc
      · rw [hout]
        exact ⟨rfl, rfl, rfl⟩
      · intro h
        rw [hout] at h
        exact absurd h (by simp [computed_client_only, ClientInformation.default])
      · intro h
        rw [hout] at h
        exact absurd h (by simp [computed_client_only, ClientInformation.default])
      · intro s2
        rw [hout]
        have e1 : Cache.get_client_credentials ⟨computed_client_only c.client_info, s2⟩
            now = Cache.get_client_credentials c now :=
          get_client_credentials_congr c ⟨computed_client_only c.client_info, s2⟩ now
            rfl rfl rfl
        have e2 : Cache.get_access_token ⟨computed_client_only c.client_info, s2⟩ now =
            none := rfl
        rw [get_computed_client_info_eq, e1, e2, if_pos hcc, if_neg (by simp)]
        rfl

/-- C8 witness: the trust-chain theorem applied to a concrete fully valid cache at
time 0. -/
theorem get_computed_client_info_trust_chain_witness :
    (Cache.get_client_credentials cacheC8 0).isSome = true ∧
    (Cache.get_computed_client_info cacheC8 0).client_id = cacheC8.client_info.client_id ∧
    Cache.get_computed_client_info
        { client_info := Cache.get_computed_client_info cacheC8 0, sessions := [] } 0 =
      Cache.get_computed_client_info cacheC8 0 := by
  refine ⟨rfl, ?_, ?_⟩
  · exact ((get_computed_client_info_trust_chain cacheC8 0).2.1 rfl).1
  · exact (get_computed_client_info_trust_chain cacheC8 0).2.2.2.2.2.2 []

/-- Helper: the poll loop when the current CreateToken call succeeds. -/
theorem create_token_loop_ok (env : SsoEnv) (m : Nat) (i : Int) (a : Nat)
    (tok : CreateTokenResponse) (h : env.create_token_poll a = .ok tok) :
    create_token_loop env m i a = ([Ev.createTokenPoll a], .ok tok) := by
  rw [create_token_loop.eq_def, h]

/-- Helper: the poll loop when the current call fails with retries exhausted. -/
theorem create_token_loop_last (env : SsoEnv) (m : Nat) (i : Int) (a : Nat)
    (err : String) (h : env.create_token_poll a = .error err) (hge : a ≥ m) :
    create_token_loop env m i a = ([Ev.createTokenPoll a], .error err) := by
  rw [create_token_loop.eq_def, h]
  exact dif_pos hge

/-- Helper: the poll loop when the current call fails and a retry follows. -/
theorem create_token_loop_step (env : SsoEnv) (m : Nat) (i : Int) (a : Nat)
    (err : String) (h : env.create_token_poll a = .error err) (hlt : ¬ a ≥ m) :
    create_token_loop env m i a =
      (Ev.createTokenPoll a :: Ev.pollSleep i :: (create_token_loop env m i (a + 1)).1,
       (create_token_loop env m i (a + 1)).2) := by
  rw [create_token_loop.eq_def, h]
  dsimp only
  rw [dif_neg hlt]

/-- Helper: every sleep the poll loop emits has the configured interval. -/
theorem create_token_loop_sleep_interval (env : SsoEnv) (m : Nat) (i : Int) :
    ∀ a d, Ev.pollSleep d ∈ (create_token_loop env m i a).1 → d = i := by
  intro a
  induction a using create_token_loop.induct env m i with
  | case1 x tok hok =>
      intro d hd
      rw [create_token_loop_ok env m i x tok hok] at hd
      simp at hd
  | case2 x err herr hge =>
      intro d hd
      rw [create_token_loop_last env m i x err herr hge] at hd
      simp at hd
  | case3 x err herr hlt ih =>
      intro d hd
      rw [create_token_loop_step env m i x err herr hlt] at hd
      simp only [List.mem_cons] at hd
      rcases hd with h1 | h2 | h3
      · cases h1
      · exact (Ev.pollSleep.inj h2)
      · exact ih d h3

/-- Helper: a poll event increases the poll count by one. -/
theorem count_polls_poll_cons (a : Nat) (tr : List Ev) :
    count_polls (Ev.createTokenPoll a :: tr) = count_polls tr + 1 := by
  simp [count_polls]

/-- Helper: a sleep event does not change the poll count. -/
theorem count_polls_sleep_cons (d : Int) (tr : List Ev) :
    count_polls (Ev.pollSleep d :: tr) = count_polls tr := by
  simp [count_polls]

/-- Helper: poll count over an appended trace. -/
theorem count_polls_append (tr1 tr2 : List Ev) :
    count_polls (tr1 ++ tr2) = count_polls tr1 + count_polls tr2 := by
  simp [count_polls]

/-- Helper: the poll loop makes at most `max_attempts + 1 - attempts` calls. -/
theorem create_token_loop_count_le (env : SsoEnv) (m : Nat) (i : Int) :
    ∀ a, a ≤ m → count_polls (create_token_loop env m i a).1 ≤ m + 1 - a := by
  intro a
  induction a using create_token_loop.induct env m i with
  | case1 x tok hok =>
      intro hle
      rw [create_token_loop_ok env m i x tok hok]
      have : count_polls [Ev.createTokenPoll x] = 1 := rfl
      rw [this]
      omega
  | case2 x err herr hge =>
      intro hle
      rw [create_token_loop_last env m i x err herr hge]
      have : count_polls [Ev.createTokenPoll x] = 1 := rfl
      rw [this]
      omega
  | case3 x err herr hlt ih =>
      intro hle
      rw [create_token_loop_step env m i x err herr hlt]
      rw [count_polls_poll_cons, count_polls_sleep_cons]
      have := ih (by omega)
      omega

/-- Helper: when every CreateToken call fails, the loop makes exactly
`max_attempts + 1 - attempts` calls and returns the error of the call made with
`attempts = max_attempts`, i.e. the last one. -/
theorem create_token_loop_all_fail (env : SsoEnv) (m : Nat) (i : Int) (f : Nat → String)
    (hf : ∀ k, env.create_token_poll k = .error (f k)) :
    ∀ a, a ≤ m →
      (create_token_loop env m i a).2 = .error (f m) ∧
      count_polls (create_token_loop env m i a).1 = m + 1 - a := by
  intro a
  induction a using create_token_loop.induct env m i with
  | case1 x tok hok =>
      intro hle
      rw [hf x] at hok
      cases hok
  | case2 x err herr hge =>
      intro hle
      have hx : x = m := le_antisymm hle hge
      have herr2 : err = f x := by
        rw [hf x] at herr
        exact (Except.error.inj herr).symm
      rw [create_token_loop_last env m i x err herr hge, herr2, hx]
      exact ⟨rfl, by rw [show count_polls [Ev.createTokenPoll m] = 1 from rfl]; omega⟩
  | case3 x err herr hlt ih =>
      intro hle
      obtain ⟨ih1, ih2⟩ := ih (by omega)
      rw [create_token_loop_step env m i x err herr hlt]
      refine ⟨ih1, ?_⟩
      rw [count_polls_poll_cons, count_polls_sleep_cons, ih2]
      omega

/-- Helper: the device-flow polling interval in the source,
`if retry_interval < device_interval then device_interval else retry_interval`, is the
maximum of the two. -/
theorem poll_interval_eq_max (r d : Int) : (if r < d then d else r) = max r d := by
  rcases lt_or_le r d with h | h
  · rw [if_pos h, max_eq_right h.le]
  · rw [if_neg (not_lt.mpr h), max_eq_left h]

/-- Helper: the shape of `create_access_token` once the device authorization and the
browser open succeed. -/
theorem create_access_token_shape (cfg : AuthConfig) (env : SsoEnv) (s : AuthState)
    (da : DeviceAuthResponse) (hda : env.start_device_authorization = .ok da)
    (hbr : env.open_browser = .ok ()) :
    create_access_token cfg env s =
      ([Ev.startDeviceAuthorization, Ev.openBrowser, Ev.initialSleep cfg.initial_delay] ++
        (create_token_loop env cfg.max_attempts (max cfg.retry_interval da.interval) 0).1,
       match (create_token_loop env cfg.max_attempts
           (max cfg.retry_interval da.interval) 0).2 with
       | .error e => .error (.OidcCreateToken e)
       | .ok token =>
           .ok { s with client_info :=
             { s.client_info with
               access_token := token.access_token
               refresh_token := token.refresh_token
               access_token_expires_at := some (env.now + token.expires_in) } }) := by
  unfold create_access_token
  rw [hda]
  dsimp only
  rw [hbr]
  dsimp only
  rw [poll_interval_eq_max]
  cases (create_token_loop env cfg.max_attempts (max cfg.retry_interval da.interval) 0).2 with
  | error e => rfl
  | ok token => rfl

/-- C3 counterexample: with the production default `max_attempts = 10` and every
CreateToken poll failing, `create_access_token` makes 11 CreateToken calls — the loop
breaks only once `attempts >= max_attempts` after the call numbered `max_attempts` —
refuting "at most max_attempts CreateToken calls are made". -/
theorem create_access_token_attempt_count_counterexample :
    cfgSample.max_attempts = 10 ∧
    count_polls (create_access_token cfgSample envAllFail {}).1 = 11 ∧
    ¬ (count_polls (create_access_token cfgSample envAllFail {}).1 ≤
        cfgSample.max_attempts) := by
  have hshape := create_access_token_shape cfgSample envAllFail {} daSample rfl rfl
  have hcount := (create_token_loop_all_fail envAllFail cfgSample.max_attempts
    (max cfgSample.retry_interval daSample.interval)
    (fun _ => "authorization_pending") (fun _ => rfl) 0 (by norm_num [cfgSample])).2
  refine ⟨rfl, ?_, ?_⟩ <;>
    rw [hshape, count_polls_append, hcount,
      show count_polls [Ev.startDeviceAuthorization, Ev.openBrowser,
        Ev.initialSleep cfgSample.initial_delay] = 0 from rfl] <;>
    norm_num [cfgSample]

/-- C3 (amended): in the device flow of `create_access_token`, every delay between
consecutive CreateToken polls equals `max(retry_interval, device_reported_interval)`;
at most `max_attempts + 1` CreateToken calls are made (not `max_attempts`: the loop
breaks only once `attempts >= max_attempts`, after the call numbered `max_attempts`);
and when every call fails the result is the `OidcCreateToken` error of the last call. -/
theorem create_access_token_poll_policy (cfg : AuthConfig) (env : SsoEnv) (s : AuthState)
    (da : DeviceAuthResponse) (hda : env.start_device_authorization = .ok da)
    (hbr : env.open_browser = .ok ()) :
    (∀ d, Ev.pollSleep d ∈ (create_access_token cfg env s).1 →
        d = max cfg.retry_interval da.interval)
    ∧ count_polls (create_access_token cfg env s).1 ≤ cfg.max_attempts + 1
    ∧ (∀ f : Nat → String, (∀ k, env.create_token_poll k = .error (f k)) →
        (create_access_token cfg env s).2 =
          .error (.OidcCreateToken (f cfg.max_attempts))) := by
  have hshape := create_access_token_shape cfg env s da hda hbr
  refine ⟨?_, ?_, ?_⟩
  · intro d hd
    rw [hshape] at hd
    simp only [List.mem_append, List.mem_cons, List.not_mem_nil, or_false] at hd
    rcases hd with (h1 | h2 | h3) | h4
    · cases h1
    · cases h2
    · cases h3
    · exact create_token_loop_sleep_interval env cfg.max_attempts
        (max cfg.retry_interval da.interval) 0 d h4
  · rw [hshape, count_polls_append,
      show count_polls [Ev.startDeviceAuthorization, Ev.openBrowser,
        Ev.initialSleep cfg.initial_delay] = 0 from rfl]
    have := create_token_loop_count_le env cfg.max_attempts
      (max cfg.retry_interval da.interval) 0 (Nat.zero_le _)
    omega
  · intro f hf
    have hres := (create_token_loop_all_fail env cfg.max_attempts
      (max cfg.retry_interval da.interval) f hf 0 (Nat.zero_le _)).1
    rw [hshape]
    dsimp only
    rw [hres]

/-- C3 witness: the amended poll-policy theorem applied to the concrete all-fail
environment. -/
theorem create_access_token_poll_policy_witness :
    envAllFail.start_device_authorization = .ok daSample ∧
    envAllFail.open_browser = .ok () ∧
    count_polls (create_access_token cfgSample envAllFail {}).1 ≤
      cfgSample.max_attempts + 1 ∧
    (create_access_token cfgSample envAllFail {}).2 =
      .error (.OidcCreateToken "authorization_pending") := by
  refine ⟨rfl, rfl, ?_, ?_⟩
  · exact (create_access_token_poll_policy cfgSample envAllFail {} daSample rfl rfl).2.1
  · exact (create_access_token_poll_policy cfgSample envAllFail {} daSample rfl rfl).2.2
      (fun _ => "authorization_pending") (fun _ => rfl)

/-- Helper: `load_cache` never touches the cache file. -/
theorem load_cache_disk (cfg : AuthConfig) (env : SsoEnv) (ic : Bool) (s : AuthState) :
    (load_cache cfg env ic s).cache_disk = s.cache_disk := by
  unfold load_cache
  cases s.cache_disk with
  | none => rfl
  | some d =>
      dsimp only
      split <;> rfl

/-- Helper: a successful `register_client` leaves the cache file untouched. -/
theorem register_client_disk (env : SsoEnv) (s s1 : AuthState)
    (h : (register_client env s).2 = .ok s1) : s1.cache_disk = s.cache_disk := by
  unfold register_client at h
  cases henv : env.register_client with
  | error e =>
      rw [henv] at h
      simp at h
  | ok r =>
      rw [henv] at h
      dsimp only at h
      rw [← Except.ok.inj h]

/-- Helper: a successful `refresh_access_token` leaves the cache file untouched. -/
theorem refresh_access_token_disk (env : SsoEnv) (s s1 : AuthState)
    (h : (refresh_access_token env s).2 = .ok s1) : s1.cache_disk = s.cache_disk := by
  unfold refresh_access_token at h
  cases henv : env.create_token_refresh with
  | error e =>
      rw [henv] at h
      simp at h
  | ok token =>
      rw [henv] at h
      dsimp only at h
      rw [← Except.ok.inj h]

/-- Helper: a successful `create_access_token` leaves the cache file untouched. -/
theorem create_access_token_disk (cfg : AuthConfig) (env : SsoEnv) (s s1 : AuthState)
    (h : (create_access_token cfg env s).2 = .ok s1) : s1.cache_disk = s.cache_disk := by
  cases hda : env.start_device_authorization with
  | error e =>
      unfold create_access_token at h
      rw [hda] at h
      simp at h
  | ok da =>
      cases hbr : env.open_browser with
      | error e =>
          unfold create_access_token at h
          rw [hda] at h
          dsimp only at h
          rw [hbr] at h
          simp at h
      | ok u =>
          cases u
          rw [create_access_token_shape cfg env s da hda hbr] at h
          dsimp only at h
          cases hloop : (create_token_loop env cfg.max_attempts
              (max cfg.retry_interval da.interval) 0).2 with
          | error e =>
              rw [hloop] at h
              simp at h
          | ok token =>
              rw [hloop] at h
              dsimp only at h
              rw [← Except.ok.inj h]

/-- Helper: a successful `ensure_client` leaves the cache file untouched. -/
theorem ensure_client_disk (env : SsoEnv) (s : AuthState) (tr : List Ev) (s1 : AuthState)
    (h : ensure_client env s = (tr, .ok s1)) : s1.cache_disk = s.cache_disk := by
  unfold ensure_client at h
  by_cases hc : (s.client_info.client_id.isNone || s.client_info.client_secret.isNone)
      = true
  · rw [if_pos hc] at h
    cases hreg : register_client env s with
    | mk tr0 r0 =>
        rw [hreg] at h
        cases r0 with
        | error e => simp at h
        | ok s2 =>
            dsimp only at h
            have h2 : ({ s2 with client_info :=
                { s2.client_info with access_token := none, refresh_token := none } } :
                  AuthState) = s1 :=
              Except.ok.inj (congrArg Prod.snd h)
            have hd2 : s2.cache_disk = s.cache_disk :=
              register_client_disk env s s2 (by rw [hreg])
            rw [← h2]
            exact hd2
  · rw [if_neg hc] at h
    rw [← Except.ok.inj (congrArg Prod.snd h)]

/-- Helper: a successful `ensure_access_token` leaves the cache file untouched. -/
theorem ensure_access_token_disk (cfg : AuthConfig) (env : SsoEnv) (s : AuthState)
    (tr : List Ev) (s1 : AuthState)
    (h : ensure_access_token cfg env s = (tr, .ok s1)) : s1.cache_disk = s.cache_disk := by
  unfold ensure_access_token at h
  by_cases h1 : (s.client_info.access_token.isNone && s.client_info.refresh_token.isSome)
      = true
  · rw [if_pos h1] at h
    cases hr : refresh_access_token env s with
    | mk tr0 r0 =>
        rw [hr] at h
        cases r0 with
        | error e => simp at h
        | ok s2 =>
            dsimp only at h
            have h2 : ({ s2 with cache_mem := s2.cache_mem.clear_sessions } : AuthState)
                = s1 :=
              Except.ok.inj (congrArg Prod.snd h)
            have hd2 : s2.cache_disk = s.cache_disk :=
              refresh_access_token_disk env s s2 (by rw [hr])
            rw [← h2]
            exact hd2
  · rw [if_neg h1] at h
    by_cases h2 : s.client_info.access_token.isNone = true
    · rw [if_pos h2] at h
      cases hc : create_access_token cfg env s with
      | mk tr0 r0 =>
          rw [hc] at h
          cases r0 with
          | error e => simp at h
          | ok s2 =>
              dsimp only at h
              have h3 : ({ s2 with cache_mem := s2.cache_mem.clear_sessions } : AuthState)
                  = s1 :=
                Except.ok.inj (congrArg Prod.snd h)
              have hd2 : s2.cache_disk = s.cache_disk :=
                create_access_token_disk cfg env s s2 (by rw [hc])
              rw [← h3]
              exact hd2
    · rw [if_neg h2] at h
      rw [← Except.ok.inj (congrArg Prod.snd h)]

/-- Helper: the `assume_role` resolver leaves the cache file untouched. -/
theorem assume_role_resolver_disk (env : SsoEnv) (aid rn : String) (rst : Bool)
    (s : AuthState) :
    (assume_role_resolver env aid rn rst s).1.cache_disk = s.cache_disk := by
  unfold assume_role_resolver
  dsimp only
  split <;> rfl

/-- Helper: the poll loop never emits a commit event. -/
theorem create_token_loop_no_commit (env : SsoEnv) (m : Nat) (i : Int) :
    ∀ a, Ev.commitCall ∉ (create_token_loop env m i a).1 := by
  intro a
  induction a using create_token_loop.induct env m i with
  | case1 x tok hok =>
      rw [create_token_loop_ok env m i x tok hok]
      simp
  | case2 x err herr hge =>
      rw [create_token_loop_last env m i x err herr hge]
      simp
  | case3 x err herr hlt ih =>
      rw [create_token_loop_step env m i x err herr hlt]
      simp only [List.mem_cons, not_or]
      exact ⟨by simp, by simp, ih⟩

/-- Helper: `create_access_token` never emits a commit event. -/
theorem create_access_token_no_commit (cfg : AuthConfig) (env : SsoEnv) (s : AuthState) :
    Ev.commitCall ∉ (create_access_token cfg env s).1 := by
  unfold create_access_token
  cases env.start_device_authorization with
  | error e => simp
  | ok da =>
      dsimp only
      cases env.open_browser with
      | error e => simp
      | ok u =>
          dsimp only
          have hno := create_token_loop_no_commit env cfg.max_attempts
            (if cfg.retry_interval < da.interval then da.interval else cfg.retry_interval) 0
          split <;> simp [List.mem_append, hno]

/-- Helper: `register_client` never emits a commit event. -/
theorem register_client_no_commit (env : SsoEnv) (s : AuthState) :
    Ev.commitCall ∉ (register_client env s).1 := by
  unfold register_client
  simp

/-- Helper: `refresh_access_token` never emits a commit event. -/
theorem refresh_access_token_no_commit (env : SsoEnv) (s : AuthState) :
    Ev.commitCall ∉ (refresh_access_token env s).1 := by
  unfold refresh_access_token
  simp

/-- Helper: `ensure_client` never emits a commit event. -/
theorem ensure_client_no_commit (env : SsoEnv) (s : AuthState) :
    Ev.commitCall ∉ (ensure_client env s).1 := by
  unfold ensure_client
  split
  · cases hreg : register_client env s with
    | mk tr0 r0 =>
        have hn := register_client_no_commit env s
        rw [hreg] at hn
        cases r0 <;> simpa using hn
  · simp

/-- Helper: `ensure_access_token` never emits a commit event. -/
theorem ensure_access_token_no_commit (cfg : AuthConfig) (env : SsoEnv) (s : AuthState) :
    Ev.commitCall ∉ (ensure_access_token cfg env s).1 := by
  unfold ensure_access_token
  split
  · cases hr : refresh_access_token env s with
    | mk tr0 r0 =>
        have hn := refresh_access_token_no_commit env s
        rw [hr] at hn
        cases r0 <;> simpa using hn
  · split
    · cases hc : create_access_token cfg env s with
      | mk tr0 r0 =>
          have hn := create_access_token_no_commit cfg env s
          rw [hc] at hn
          cases r0 <;> simpa using hn
    · simp

/-- Helper: the `assume_role` resolver never emits a commit event. -/
theorem assume_role_resolver_no_commit (env : SsoEnv) (aid rn : String) (rst : Bool)
    (s : AuthState) :
    Ev.commitCall ∉ (assume_role_resolver env aid rn rst s).2.1 := by
  unfold assume_role_resolver resolve_credentials
  rcases rst with _ | _ <;>
    rcases hgs : s.cache_mem.get_session env.now aid rn with _ | cached <;>
    rcases hgr : env.get_role_credentials aid rn with e | rc <;>
    simp [hgs, hgr]

/-- C1: atomicity of `assume_role` — when the invocation fails at any flow step
(registration, device authorization, browser open, token creation or refresh,
GetRoleCredentials, or the resolver; i.e. with any error other than the commit's own
`Cache` error), the on-disk cache is exactly its pre-call state, and the commit is
invoked only when the resolver's result is `Ok`. -/
theorem assume_role_atomicity (cfg : AuthConfig) (env : SsoEnv) (aid rn : String)
    (rst ic : Bool) (s0 : AuthState) :
    (∀ e, (assume_role cfg env aid rn rst ic s0).result = .error e →
        (∀ m, e ≠ AuthError.Cache m) →
        (assume_role cfg env aid rn rst ic s0).state.cache_disk = s0.cache_disk)
    ∧ (Ev.commitCall ∈ (assume_role cfg env aid rn rst ic s0).trace →
        ∃ v, (assume_role cfg env aid rn rst ic s0).resolver_result =
          some (.ok v)) := by
  unfold assume_role prepare_sso_and_resolve
  dsimp only
  set s := (if cfg.handle_cache then load_cache cfg env ic s0 else s0) with hs
  have hsd : s.cache_disk = s0.cache_disk := by
    rw [hs]
    split
    · exact load_cache_disk cfg env ic s0
    · rfl
  cases h1 : ensure_client env s with
  | mk tr1 r1 =>
      have hn1 := ensure_client_no_commit env s
      rw [h1] at hn1
      cases r1 with
      | error e1 =>
          dsimp only
          constructor
          · intro e hres hnc
            exact hsd
          · intro hmem
            exact absurd hmem hn1
      | ok s1 =>
          have hd1 : s1.cache_disk = s.cache_disk := ensure_client_disk env s tr1 s1 h1
          dsimp only
          cases h2 : ensure_access_token cfg env s1 with
          | mk tr2 r2 =>
              have hn2 := ensure_access_token_no_commit cfg env s1
              rw [h2] at hn2
              cases r2 with
              | error e2 =>
                  dsimp only
                  constructor
                  · intro e hres hnc
                    rw [hd1, hsd]
                  · intro hmem
                    simp only [List.mem_append] at hmem
                    rcases hmem with hmem | hmem
                    · exact absurd hmem hn1
                    · exact absurd hmem hn2
              | ok s2 =>
                  have hd2 : s2.cache_disk = s1.cache_disk :=
                    ensure_access_token_disk cfg env s1 tr2 s2 h2
                  dsimp only
                  have hn3 := assume_role_resolver_no_commit env aid rn rst s2
                  have hd3 := assume_role_resolver_disk env aid rn rst s2
                  cases h3 : assume_role_resolver env aid rn rst s2 with
                  | mk s3 rest =>
                      rw [h3] at hn3 hd3
                      cases rest with
                      | mk tr3 r3 =>
                          cases r3 with
                          | error e3 =>
                              dsimp only
                              constructor
                              · intro e hres hnc
                                rw [show s3.cache_disk = s2.cache_disk from hd3, hd2,
                                  hd1, hsd]
                              · intro hmem
                                simp only [List.mem_append] at hmem
                                rcases hmem with (hmem | hmem) | hmem
                                · exact absurd hmem hn1
                                · exact absurd hmem hn2
                                · exact absurd hmem hn3
                          | ok v =>
                              dsimp only
                              by_cases hhc : cfg.handle_cache = true
                              · rw [if_pos hhc]
                                cases hcm : env.commit_result with
                                | error ce =>
                                    dsimp only
                                    constructor
                                    · intro e hres hnc
                                      exact absurd (Except.error.inj hres).symm (hnc ce)
                                    · intro hmem
                                      exact ⟨v, rfl⟩
                                | ok u =>
                                    dsimp only
                                    constructor
                                    · intro e hres hnc
                                      exact absurd hres (by simp)
                                    · intro hmem
                                      exact ⟨v, rfl⟩
                              · rw [if_neg hhc]
                                constructor
                                · intro e hres hnc
                                  exact absurd hres (by simp)
                                · intro hmem
                                  exact ⟨v, rfl⟩

/-- C1 witness: the atomicity theorem applied to a concrete denied invocation (the
cache file is unchanged) and to a concrete successful one (the commit event implies
the resolver succeeded). -/
theorem assume_role_atomicity_witness :
    ((assume_role cfgSample envDenied "1" "r" true false stateC1).result =
        .error (.SsoGetRoleCredentials "denied") ∧
      (assume_role cfgSample envDenied "1" "r" true false stateC1).state.cache_disk =
        stateC1.cache_disk) ∧
    (Ev.commitCall ∈ (assume_role cfgSample envC1ok "1" "r" true false stateC1).trace ∧
      ∃ v, (assume_role cfgSample envC1ok "1" "r" true false stateC1).resolver_result =
        some (.ok v)) := by
  refine ⟨⟨rfl, ?_⟩, ?_, ?_⟩
  · exact (assume_role_atomicity cfgSample envDenied "1" "r" true false stateC1).1
      (.SsoGetRoleCredentials "denied") rfl (fun m => by simp)
  · decide
  · exact (assume_role_atomicity cfgSample envC1ok "1" "r" true false stateC1).2
      (by decide)

/-- Helper: a key just inserted is contained. -/
theorem contains_key_append_unit (acc : List (String × Credentials)) (aid : String)
    (c : Credentials) : contains_key (acc ++ [(aid, c)]) aid = true := by
  simp [contains_key]

/-- Helper: inserting a different key does not affect containment. -/
theorem contains_key_append_other (acc : List (String × Credentials)) (aid a2 : String)
    (c : Credentials) (h : ¬ (a2 = aid)) :
    contains_key (acc ++ [(a2, c)]) aid = contains_key acc aid := by
  simp [contains_key, h]

/-- Helper: `Except.map` composition. -/
theorem except_map_map {ε α β γ : Type} (f : β → γ) (g : α → β) (r : Except ε α) :
    (r.map g).map f = r.map (fun x => f (g x)) := by
  cases r <;> rfl

/-- Helper: `Except.map` respects pointwise-equal functions. -/
theorem except_map_congr {ε α β : Type} (f g : α → β) (r : Except ε α)
    (h : ∀ x, f x = g x) : r.map f = r.map g := by
  cases r <;> simp [Except.map, h]

/-- Helper: candidate expansion over a cons of accounts. -/
theorem expand_candidates_cons (a : String) (as ro : List String) :
    expand_candidates (a :: as) ro =
      ro.map (fun r => (a, r)) ++ expand_candidates as ro := by
  simp [expand_candidates]

/-- Helper: once an account has credentials, its remaining candidates are skipped. -/
theorem exec_batch_resolve_skip (outcome : String → String → AssumeOutcome)
    (aid : String) :
    ∀ (roles : List String) (rest : List (String × String))
      (acc : List (String × Credentials)),
      contains_key acc aid = true →
      exec_batch_resolve outcome (roles.map (fun r => (aid, r)) ++ rest) acc =
        exec_batch_resolve outcome rest acc := by
  intro roles
  induction roles with
  | nil =>
      intro rest acc h
      rfl
  | cons r rs ih =>
      intro rest acc h
      show exec_batch_resolve outcome ((aid, r) :: (rs.map (fun r => (aid, r)) ++ rest))
          acc = _
      rw [exec_batch_resolve, if_pos h]
      exact ih rest acc h

/-- Helper: processing one account's block of candidates is exactly
`first_success_role` on that account followed by the rest. -/
theorem exec_batch_resolve_block (outcome : String → String → AssumeOutcome)
    (aid : String) :
    ∀ (roles : List String) (rest : List (String × String))
      (acc : List (String × Credentials)),
      contains_key acc aid = false →
      exec_batch_resolve outcome (roles.map (fun r => (aid, r)) ++ rest) acc =
        (match first_success_role outcome aid roles with
         | (tr, .error e) => (tr.map (fun r => (aid, r)), .error e)
         | (tr, .ok none) =>
             (tr.map (fun r => (aid, r)) ++ (exec_batch_resolve outcome rest acc).1,
              (exec_batch_resolve outcome rest acc).2)
         | (tr, .ok (some c)) =>
             (tr.map (fun r => (aid, r)) ++
                (exec_batch_resolve outcome rest (acc ++ [(aid, c)])).1,
              (exec_batch_resolve outcome rest (acc ++ [(aid, c)])).2)) := by
  intro roles
  induction roles with
  | nil =>
      intro rest acc h
      show exec_batch_resolve outcome rest acc = _
      simp [first_success_role]
  | cons r rs ih =>
      intro rest acc h
      show exec_batch_resolve outcome ((aid, r) :: (rs.map (fun r => (aid, r)) ++ rest))
          acc = _
      rw [exec_batch_resolve, if_neg (by simp [h])]
      cases houtcome : outcome aid r with
      | ok c =>
          dsimp only
          rw [exec_batch_resolve_skip outcome aid rs rest (acc ++ [(aid, c)])
            (contains_key_append_unit acc aid c)]
          rw [show first_success_role outcome aid (r :: rs) = ([r], .ok (some c)) by
            rw [first_success_role, houtcome]]
          rfl
      | authError m =>
          dsimp only
          rw [ih rest acc h]
          rcases hfs : first_success_role outcome aid rs with ⟨tr2, res2⟩
          rw [show first_success_role outcome aid (r :: rs) =
              (r :: (first_success_role outcome aid rs).1,
               (first_success_role outcome aid rs).2) by
            rw [first_success_role, houtcome]]
          rw [hfs]
          cases res2 with
          | error e => rfl
          | ok oc =>
              cases oc with
              | none => rfl
              | some c => rfl
      | otherError e =>
          dsimp only
          rw [show first_success_role outcome aid (r :: rs) = ([r], .error e) by
            rw [first_success_role, houtcome]]
          rfl

/-- Helper: batch resolution over expanded candidates equals the account-wise
first-success fold, relative to an accumulator free of the listed accounts. -/
theorem exec_batch_resolve_blockwise (outcome : String → String → AssumeOutcome)
    (role_order : List String) :
    ∀ (accounts : List String) (acc : List (String × Credentials)),
      accounts.Nodup → (∀ a ∈ accounts, contains_key acc a = false) →
      exec_batch_resolve outcome (expand_candidates accounts role_order) acc =
        ((spec_batch_resolve outcome role_order accounts).1,
         (spec_batch_resolve outcome role_order accounts).2.map (fun m => acc ++ m)) := by
  intro accounts
  induction accounts with
  | nil =>
      intro acc hnd hfree
      simp [exec_batch_resolve, spec_batch_resolve, expand_candidates, Except.map]
  | cons a as ih =>
      intro acc hnd hfree
      have hnd2 : as.Nodup := (List.nodup_cons.mp hnd).2
      have hanotin : a ∉ as := (List.nodup_cons.mp hnd).1
      rw [expand_candidates_cons]
      rw [exec_batch_resolve_block outcome a role_order (expand_candidates as role_order)
        acc (hfree a (by simp))]
      rcases hfs : first_success_role outcome a role_order with ⟨tr, res⟩
      cases res with
      | error e =>
          dsimp only
          rw [show spec_batch_resolve outcome role_order (a :: as) =
              (tr.map (fun r => (a, r)), .error e) from by
            rw [spec_batch_resolve, hfs]]
          rfl
      | ok oc =>
          cases oc with
          | none =>
              dsimp only
              rw [ih acc hnd2 (fun x hx => hfree x (by simp [hx]))]
              rw [show spec_batch_resolve outcome role_order (a :: as) =
                  (tr.map (fun r => (a, r)) ++
                    (spec_batch_resolve outcome role_order as).1,
                   (spec_batch_resolve outcome role_order as).2) from by
                rw [spec_batch_resolve, hfs]]
          | some c =>
              dsimp only
              have hfree2 : ∀ x ∈ as, contains_key (acc ++ [(a, c)]) x = false := by
                intro x hx
                rw [contains_key_append_other acc x a c
                  (fun hax => hanotin (hax ▸ hx))]
                exact hfree x (by simp [hx])
              rw [ih (acc ++ [(a, c)]) hnd2 hfree2]
              rw [show spec_batch_resolve outcome role_order (a :: as) =
                  (tr.map (fun r => (a, r)) ++
                    (spec_batch_resolve outcome role_order as).1,
                   ((spec_batch_resolve outcome role_order as).2).map
                     (fun m => (a, c) :: m)) from by
                rw [spec_batch_resolve, hfs]]
              refine congrArg (Prod.mk _) ?_
              rw [except_map_map]
              exact except_map_congr _ _ _ (fun m => by rw [List.append_assoc]; rfl)

/-- C9: for deduplicated accounts, the `exec_batch` credential-resolution loop over the
expanded `account_ids × role_order` candidates behaves exactly as the spec-side rule:
per account the roles are attempted in `role_order` order, the first success wins and
every remaining candidate of that account is skipped, a GetRoleCredentials
authorization failure skips just that candidate, and any other `AuthManager` error
aborts the whole batch — attempted-candidate traces included. -/
theorem exec_batch_resolve_first_success (outcome : String → String → AssumeOutcome)
    (account_ids role_order : List String) (hnd : account_ids.Nodup) :
    exec_batch_resolve outcome (expand_candidates account_ids role_order) [] =
      spec_batch_resolve outcome role_order account_ids := by
  rw [exec_batch_resolve_blockwise outcome role_order account_ids [] hnd
    (fun a _ => rfl)]
  rcases spec_batch_resolve outcome role_order account_ids with ⟨tr, res⟩
  cases res with
  | error e => rfl
  | ok m => simp [Except.map]

/-- C9 witness: the equivalence applied to a concrete three-account batch with a
mixed outcome oracle. -/
theorem exec_batch_resolve_first_success_witness :
    (["1", "2", "3"] : List String).Nodup ∧
    exec_batch_resolve outcomeC9 (expand_candidates ["1", "2", "3"] ["adm", "ro"]) [] =
      spec_batch_resolve outcomeC9 ["adm", "ro"] ["1", "2", "3"] :=
  ⟨by decide, exec_batch_resolve_first_success outcomeC9 ["1", "2", "3"] ["adm", "ro"]
    (by decide)⟩
